import Mathlib

/-
Verification of the Claudian stream-coordination state machine
(features/chat/controllers/StreamController and its collaborators),
shallowly embedded in Lean from the natural-language specification.
The embedding is executable: chunks are an inductive protocol, the turn
state and message are plain structures, and the single entry point
`handleStreamChunk` returns the mutated state, the mutated message and
the ordered list of renderer side effects it triggered.
-/

namespace Claudian

/-- Status of a tracked tool invocation. -/
inductive ToolStatus
  | running
  | completed
  | error
  | blocked
deriving DecidableEq

/-- Status of a nested (subagent) execution. -/
inductive SubStatus
  | pending
  | running
  | completed
  | error
  | orphaned
deriving DecidableEq

/-- Lifecycle mode of a nested execution: synchronous (inline) or
asynchronous (background, detached). -/
inductive SubMode
  | sync
  | async
deriving DecidableEq

/-- Input payload of a tool invocation.  The two fields the coordinator
inspects (`file_path` for plan capture, `run_in_background` for the
nested-agent mode decision) are explicit; all other key/value pairs are
carried opaquely in `fields`. -/
structure ToolInput where
  file_path : Option String := none
  run_in_background : Option Bool := none
  fields : List (String × String) := []
deriving DecidableEq

/-- Merge the key/value pairs of a later `tool_use` chunk into an earlier
input: later keys override earlier ones. -/
def mergeFields (old new : List (String × String)) : List (String × String) :=
  old.filter (fun kv => ((new.find? (fun kv2 => kv2.fst == kv.fst)).isNone : Bool)) ++ new

/-- Merge a repeat `tool_use` chunk's input into the existing Tool Call's
input: fields present on the new chunk win. -/
def ToolInput.merge (old new : ToolInput) : ToolInput :=
  { file_path := (new.file_path).orElse (fun _ => old.file_path),
    run_in_background := (new.run_in_background).orElse (fun _ => old.run_in_background),
    fields := mergeFields old.fields new.fields }

/-- A tracked invocation of an external capability. -/
structure ToolCall where
  id : String
  name : String
  input : ToolInput
  status : ToolStatus
  result : Option String := none
deriving DecidableEq

/-- Record of a nested agent execution. -/
structure SubagentInfo where
  id : String
  description : String := ""
  status : SubStatus
  mode : SubMode
  toolCalls : List ToolCall := []
  result : Option String := none
deriving DecidableEq

/-- An ordered, closed unit of the assembled message. -/
inductive ContentBlock
  | text (content : String)
  | thinking (content : String)
  | tool_use (toolId : String)
  | subagent (subagentId : String) (mode : Option SubMode)
deriving DecidableEq

/-- Resource-usage snapshot; replaced wholesale on each accepted usage
chunk, never merged field-by-field. -/
structure Usage where
  model : String := ""
  inputTokens : Nat := 0
  cacheCreationInputTokens : Nat := 0
  cacheReadInputTokens : Nat := 0
  contextWindow : Nat := 0
  percentage : Nat := 0
deriving DecidableEq

/-- The message being assembled for one turn. -/
structure ChatMessage where
  content : String := ""
  contentBlocks : List ContentBlock := []
  toolCalls : List ToolCall := []
  subagents : List SubagentInfo := []
deriving DecidableEq

/-- Modelled from the spec: the Turn State of the missing
StreamController/ChatState sources — the open text span (`textOpen`
stands for a live `currentTextEl`, `currentTextContent` for its
accumulator), the open thinking span (`currentThinking` holds its
accumulated content when open), the content container, the
insertion-ordered Pending-Tool Buffer (ids), the pending/async Task
bookkeeping of the Subagent Coordinator, the usage snapshot and its
ignore flag, the captured plan file path, and the indicator timer state
(`debouncePending` for the debounced affordance, `timerActive` for the
elapsed-time interval). -/
structure TurnState where
  textOpen : Bool := false
  currentTextContent : String := ""
  currentThinking : Option String := none
  hasContentEl : Bool := true
  pendingTools : List String := []
  pendingTasks : List String := []
  asyncLaunches : List String := []
  usage : Option Usage := none
  ignoreUsageUpdates : Bool := false
  planFilePath : Option String := none
  responseStartTime : Option Nat := none
  debouncePending : Bool := false
  timerActive : Bool := false
deriving DecidableEq

/-- External collaborators consumed by the coordinator: the session
identity provider, the nested-subagent spawn counter of the Subagent
Coordinator, and the content-based blocked detector of the renderer. -/
structure Env where
  currentSessionId : Option String
  subagentsSpawned : Nat
  isBlockedToolResult : String → Bool

/-- One event of the agent's output stream (the chunk protocol). -/
inductive Chunk
  | text (content : String) (parentToolUseId : Option String)
  | thinking (content : String) (parentToolUseId : Option String)
  | tool_use (id : String) (name : String) (input : ToolInput)
      (parentToolUseId : Option String)
  | tool_result (id : String) (content : String) (isError : Bool)
      (parentToolUseId : Option String)
  | usage (u : Usage) (sessionId : Option String)
  | error (content : String)
  | blocked (content : String)
  | done
deriving DecidableEq

/-- The parent routing key carried by a chunk, when present. -/
def Chunk.parentKey : Chunk → Option String
  | Chunk.text _ p => p
  | Chunk.thinking _ p => p
  | Chunk.tool_use _ _ _ p => p
  | Chunk.tool_result _ _ _ p => p
  | _ => none

/-- A renderer side effect triggered by the coordinator. -/
inductive REvent
  | renderToolCall (id : String)
  | renderWriteEditBlock (id : String)
  | renderText (content : String)
  | addTextCopyButton (content : String)
deriving DecidableEq

/-- Ids of tool calls handed to the renderer, in order, by a list of
side effects. -/
def renderedToolIds (evs : List REvent) : List String :=
  evs.filterMap fun e =>
    match e with
    | REvent.renderToolCall i => some i
    | REvent.renderWriteEditBlock i => some i
    | _ => none

/-- Tool names exempted from the content-based blocked heuristic
(confirmation/exit-plan tools). -/
def exemptToolNames : List String := ["AskUserQuestion", "ExitPlanMode"]

/-- Tools rendered with the diff-aware write/edit strategy on flush. -/
def writeEditToolNames : List String := ["Write", "Edit"]

/-- Name of the nested-agent invocation tool. -/
def taskToolName : String := "Task"

/-- Name of the background-agent output retrieval tool, handled entirely
by the Subagent Coordinator. -/
def agentOutputToolName : String := "AgentOutput"

/-- Whether the first character list starts with the second. -/
def startsWithChars : List Char → List Char → Bool
  | _, [] => true
  | [], _ :: _ => false
  | a :: as, b :: bs => a == b && startsWithChars as bs

/-- Whether the first character list contains the second as a
contiguous run. -/
def containsChars : List Char → List Char → Bool
  | [], needle => startsWithChars [] needle
  | a :: as, needle => startsWithChars (a :: as) needle || containsChars as needle

/-- Whether a file path lies under a `.claude/plans` directory, with
forward slashes or Windows backslashes. -/
def isPlanFilePath (p : String) : Bool :=
  containsChars p.toList ".claude/plans".toList ||
    containsChars p.toList ".claude\\plans".toList

/-- First tool call with the given id. -/
def lookupTool : List ToolCall → String → Option ToolCall
  | [], _ => none
  | t :: ts, i => if t.id = i then some t else lookupTool ts i

/-- Replace the input of the first tool call with the given id. -/
def setToolInput : List ToolCall → String → ToolInput → List ToolCall
  | [], _, _ => []
  | t :: ts, i, inp =>
      if t.id = i then { t with input := inp } :: ts
      else t :: setToolInput ts i inp

/-- Status assigned by a `tool_result`: the error flag wins; otherwise
the content-based blocked detector applies unless the tool's name is on
the exemption list. -/
def resultStatus (env : Env) (name content : String) (isError : Bool) : ToolStatus :=
  if isError then ToolStatus.error
  else if env.isBlockedToolResult content = true ∧ name ∉ exemptToolNames then
    ToolStatus.blocked
  else ToolStatus.completed

/-- Apply a `tool_result` to the first tool call with the given id;
an unknown id is ignored (protocol-level tolerance). -/
def applyToolResult (env : Env) : List ToolCall → String → String → Bool → List ToolCall
  | [], _, _, _ => []
  | t :: ts, i, content, isError =>
      if t.id = i then
        { t with status := resultStatus env t.name content isError,
                 result := some content } :: ts
      else t :: applyToolResult env ts i content isError

/-- First subagent record with the given id in synchronous mode. -/
def lookupSyncSub : List SubagentInfo → String → Option SubagentInfo
  | [], _ => none
  | r :: rs, i =>
      if r.id = i ∧ r.mode = SubMode.sync then some r else lookupSyncSub rs i

/-- Rewrite the first subagent record with the given id. -/
def mapSub : List SubagentInfo → String → (SubagentInfo → SubagentInfo) → List SubagentInfo
  | [], _, _ => []
  | r :: rs, i, f => if r.id = i then f r :: rs else r :: mapSub rs i f

/-- Remove the first occurrence of an id from a buffer. -/
def removeId : List String → String → List String
  | [], _ => []
  | x :: xs, i => if x = i then xs else x :: removeId xs i

/-- Modelled from the spec: flushing a buffered call invokes the renderer
with a tool-type-specific strategy — write/edit-shaped tools use the
diff-aware renderer, all others the generic tool-call renderer. -/
def flushEventFor (m : ChatMessage) (i : String) : REvent :=
  match lookupTool m.toolCalls i with
  | some t =>
      if t.name ∈ writeEditToolNames then REvent.renderWriteEditBlock i
      else REvent.renderToolCall i
  | none => REvent.renderToolCall i

/-- Modelled from the spec: the Pending-Tool Buffer is flushed in full,
in insertion order; flushing removes every call from the buffer and
invokes the renderer once per call. -/
def flushPendingTools (s : TurnState) (m : ChatMessage) : TurnState × List REvent :=
  ({ s with pendingTools := [] }, s.pendingTools.map (flushEventFor m))

/-- Modelled from the spec: when a `tool_result` arrives for a call still
in the buffer, that specific call is rendered immediately and removed;
other buffered calls stay buffered until their own trigger. -/
def flushSinglePendingTool (s : TurnState) (m : ChatMessage) (i : String) :
    TurnState × List REvent :=
  if i ∈ s.pendingTools then
    ({ s with pendingTools := removeId s.pendingTools i }, [flushEventFor m i])
  else (s, [])

/-- Modelled from the spec: finalizing the open text span — a text
Content Block is appended only when the accumulated content is
non-empty, the copy affordance is added only when a text element exists
and the content is non-empty, and the span state is cleared. -/
def finalizeCurrentTextBlock (s : TurnState) (m : ChatMessage) :
    TurnState × ChatMessage × List REvent :=
  let evs := if s.textOpen = true ∧ s.currentTextContent ≠ "" then
      [REvent.addTextCopyButton s.currentTextContent]
    else []
  let m2 := if s.currentTextContent ≠ "" then
      { m with contentBlocks := m.contentBlocks ++ [ContentBlock.text s.currentTextContent] }
    else m
  ({ s with textOpen := false, currentTextContent := "" }, m2, evs)

/-- Modelled from the spec: finalizing the open thinking span — a
thinking Content Block is appended only when the accumulated content is
non-empty, the span state and the indicator timers are cleared, and with
no open span the call is a no-op. -/
def finalizeCurrentThinkingBlock (s : TurnState) (m : ChatMessage) :
    TurnState × ChatMessage × List REvent :=
  match s.currentThinking with
  | none => (s, m, [])
  | some c =>
      let m2 := if c ≠ "" then
          { m with contentBlocks := m.contentBlocks ++ [ContentBlock.thinking c] }
        else m
      ({ s with currentThinking := none, debouncePending := false, timerActive := false },
       m2, [])

/-- Modelled from the spec: plan-file capture — a Write whose (merged)
input `file_path` lies under a `.claude/plans` directory records that
path in the Turn State; nothing else touches it. -/
def capturePlanFilePath (s : TurnState) (name : String) (input : ToolInput) : TurnState :=
  if name = "Write" then
    match input.file_path with
    | some p => if isPlanFilePath p then { s with planFilePath := some p } else s
    | none => s
  else s

/-- Modelled from the spec: a `text` chunk flushes the Pending-Tool
Buffer first, closes an open thinking span, opens a text span if none is
open, appends the content to both the span accumulator and the message's
flat accumulator, and re-renders the span incrementally. -/
def handleText (s : TurnState) (m : ChatMessage) (content : String) :
    TurnState × ChatMessage × List REvent :=
  let f := flushPendingTools s m
  let k := finalizeCurrentThinkingBlock f.fst m
  let s3 := { k.fst with textOpen := true,
                         currentTextContent := k.fst.currentTextContent ++ content,
                         debouncePending := false, timerActive := false }
  let m3 := { k.snd.fst with content := k.snd.fst.content ++ content }
  (s3, m3, f.snd ++ k.snd.snd ++ [REvent.renderText s3.currentTextContent])

/-- Modelled from the spec: a `thinking` chunk flushes the Pending-Tool
Buffer first; it requires an open content container (no further effect
otherwise), closes an open text span, opens a thinking span if none is
open, appends the content, and drives the elapsed-time readout. -/
def handleThinking (s : TurnState) (m : ChatMessage) (content : String) :
    TurnState × ChatMessage × List REvent :=
  let f := flushPendingTools s m
  if f.fst.hasContentEl = true then
    let k := finalizeCurrentTextBlock f.fst m
    let s3 := { k.fst with
        currentThinking := some ((k.fst.currentThinking.getD "") ++ content),
        timerActive := true }
    (s3, k.snd.fst, f.snd ++ k.snd.snd)
  else (f.fst, m, f.snd)

/-- Modelled from the spec: a `tool_use` naming the nested-agent tool
closes any open span, flushes the buffer so earlier tools render before
the inline subagent block, and delegates to the Subagent Coordinator:
a known background flag creates an async record and appends an async
subagent Content Block immediately, a known foreground flag creates a
sync record and appends a sync subagent Content Block, and an unknown
flag buffers the invocation (repeat chunks only update its label). -/
def handleTaskToolUse (s : TurnState) (m : ChatMessage) (i : String) (input : ToolInput) :
    TurnState × ChatMessage × List REvent :=
  let f := flushPendingTools s m
  let k := finalizeCurrentThinkingBlock f.fst m
  let x := finalizeCurrentTextBlock k.fst k.snd.fst
  let s3 := { x.fst with debouncePending := true }
  let m3 := x.snd.fst
  let evs := f.snd ++ k.snd.snd ++ x.snd.snd
  match input.run_in_background with
  | some true =>
      ({ s3 with asyncLaunches := s3.asyncLaunches ++ [i] },
       { m3 with
          subagents := m3.subagents ++
            [{ id := i, status := SubStatus.running, mode := SubMode.async }],
          contentBlocks := m3.contentBlocks ++
            [ContentBlock.subagent i (some SubMode.async)] },
       evs)
  | some false =>
      (s3,
       { m3 with
          subagents := m3.subagents ++
            [{ id := i, status := SubStatus.running, mode := SubMode.sync }],
          contentBlocks := m3.contentBlocks ++ [ContentBlock.subagent i none] },
       evs)
  | none =>
      if i ∈ s3.pendingTasks ∨ (lookupSyncSub m3.subagents i).isSome then
        (s3, m3, evs)
      else
        ({ s3 with pendingTasks := s3.pendingTasks ++ [i] }, m3, evs)

/-- Modelled from the spec: `tool_use` dispatch — the nested-agent tool
delegates to the Subagent Coordinator; the agent-output tool is handled
by the coordinator without touching the generic tool-call list or the
Content Blocks (spans are still closed first); a repeat id merges the
new input fields into the existing call and updates its label in place;
a new id closes any open span, creates a running Tool Call, inserts it
into the Pending-Tool Buffer without rendering, appends a `tool_use`
Content Block immediately, and schedules the debounced indicator.
Plan-file capture runs on the (merged) Write input in both cases. -/
def handleToolUse (s : TurnState) (m : ChatMessage) (i name : String) (input : ToolInput) :
    TurnState × ChatMessage × List REvent :=
  if name = taskToolName then handleTaskToolUse s m i input
  else if name = agentOutputToolName then
    let k := finalizeCurrentThinkingBlock s m
    let x := finalizeCurrentTextBlock k.fst k.snd.fst
    (x.fst, x.snd.fst, k.snd.snd ++ x.snd.snd)
  else
    match lookupTool m.toolCalls i with
    | some t =>
        let merged := ToolInput.merge t.input input
        (capturePlanFilePath s name merged,
         { m with toolCalls := setToolInput m.toolCalls i merged }, [])
    | none =>
        let k := finalizeCurrentThinkingBlock s m
        let x := finalizeCurrentTextBlock k.fst k.snd.fst
        let s3 := capturePlanFilePath
          { x.fst with pendingTools := x.fst.pendingTools ++ [i], debouncePending := true }
          name input
        let m3 := { x.snd.fst with
            toolCalls := x.snd.fst.toolCalls ++
              [{ id := i, name := name, input := input, status := ToolStatus.running }],
            contentBlocks := x.snd.fst.contentBlocks ++ [ContentBlock.tool_use i] }
        (s3, m3, k.snd.snd ++ x.snd.snd)

/-- Modelled from the spec: finalizing a synchronous subagent record —
the matching `tool_result` for the invocation id moves it to
completed/error and attaches the result text. -/
def finalizeSyncSubagent (m : ChatMessage) (i content : String) (isError : Bool) :
    ChatMessage :=
  let done := fun (r : SubagentInfo) =>
    { r with status := if isError then SubStatus.error else SubStatus.completed,
             result := some content }
  { m with subagents := mapSub m.subagents i done }

/-- Modelled from the spec: `tool_result` dispatch, preserving the source
check precedence — a buffered Task resolves sync and is finalized; a
pending asynchronous launch is delegated without mutating the generic
tool-call list; a synchronous subagent id finalizes that record;
otherwise the call is rendered first if still buffered (only that call)
and then marked via the error flag, the blocked detector and the
exemption list, with the result content attached. -/
def handleToolResult (env : Env) (s : TurnState) (m : ChatMessage)
    (i content : String) (isError : Bool) : TurnState × ChatMessage × List REvent :=
  if i ∈ s.pendingTasks then
    let s2 := { s with pendingTasks := removeId s.pendingTasks i }
    let m2 := { m with subagents := m.subagents ++
        [{ id := i, status := SubStatus.running, mode := SubMode.sync }] }
    (s2, finalizeSyncSubagent m2 i content isError, [])
  else if i ∈ s.asyncLaunches then
    let markRunning := fun (r : SubagentInfo) => { r with status := SubStatus.running }
    ({ s with asyncLaunches := removeId s.asyncLaunches i },
     { m with subagents := mapSub m.subagents i markRunning }, [])
  else if (lookupSyncSub m.subagents i).isSome then
    (s, finalizeSyncSubagent m i content isError, [])
  else
    let f := flushSinglePendingTool s m i
    (f.fst,
     { m with toolCalls := applyToolResult env m.toolCalls i content isError },
     f.snd)

/-- Modelled from the spec: usage gating — the snapshot is replaced only
if no nested subagent has been spawned this turn, the usage-ignore flag
is not set, and the chunk carries no session identifier or one equal to
the current session identifier; otherwise the chunk is silently
dropped. -/
def handleUsage (env : Env) (s : TurnState) (m : ChatMessage)
    (u : Usage) (sid : Option String) : TurnState × ChatMessage × List REvent :=
  if env.subagentsSpawned = 0 ∧ s.ignoreUsageUpdates = false ∧
      (sid = none ∨ env.currentSessionId = sid) then
    ({ s with usage := some u }, m, [])
  else (s, m, [])

/-- Marker line appended inline for `error`/`blocked` chunks. -/
def markerText (kind content : String) : String :=
  "\n\n[" ++ kind ++ "] " ++ content

/-- Modelled from the spec: an `error`/`blocked` chunk flushes the
Pending-Tool Buffer first, finalizes any open text/thinking span, and
appends a distinct marker line to the text accumulator (not a new
Content Block type) so it renders inline. -/
def handleMarker (s : TurnState) (m : ChatMessage) (kind content : String) :
    TurnState × ChatMessage × List REvent :=
  let f := flushPendingTools s m
  let k := finalizeCurrentThinkingBlock f.fst m
  let x := finalizeCurrentTextBlock k.fst k.snd.fst
  ({ x.fst with currentTextContent := x.fst.currentTextContent ++ markerText kind content },
   { x.snd.fst with content := x.snd.fst.content ++ markerText kind content },
   f.snd ++ k.snd.snd ++ x.snd.snd)

/-- Modelled from the spec: a `done` chunk flushes the Pending-Tool
Buffer, finalizes any open span and stops the indicator; it appends no
content of its own. -/
def handleDone (s : TurnState) (m : ChatMessage) :
    TurnState × ChatMessage × List REvent :=
  let f := flushPendingTools s m
  let k := finalizeCurrentThinkingBlock f.fst m
  let x := finalizeCurrentTextBlock k.fst k.snd.fst
  ({ x.fst with debouncePending := false, timerActive := false },
   x.snd.fst, f.snd ++ k.snd.snd ++ x.snd.snd)

/-- Modelled from the spec: routing of a chunk bearing a parent
tool-invocation id — it is never applied to the top-level message.  When
the parent is a still-buffered Task, the pending invocation is rendered
as a synchronous record first; a routed `tool_use` appends a nested
running Tool Call to the owning record, a routed `tool_result` updates
the matching nested call, other routed kinds are no-ops; with no owning
execution the chunk is silently dropped. -/
def routeSubagentChunk (s : TurnState) (m : ChatMessage) (pid : String) (c : Chunk) :
    TurnState × ChatMessage × List REvent :=
  let sm :=
    if (lookupSyncSub m.subagents pid).isNone ∧ pid ∈ s.pendingTasks then
      ({ s with pendingTasks := removeId s.pendingTasks pid },
       { m with subagents := m.subagents ++
          [{ id := pid, status := SubStatus.running, mode := SubMode.sync }] })
    else (s, m)
  match lookupSyncSub sm.snd.subagents pid with
  | none => (s, m, [])
  | some _ =>
      match c with
      | Chunk.tool_use i name input _ =>
          let addNested := fun (r : SubagentInfo) =>
            { r with toolCalls := r.toolCalls ++
                [{ id := i, name := name, input := input, status := ToolStatus.running }] }
          (sm.fst, { sm.snd with subagents := mapSub sm.snd.subagents pid addNested }, [])
      | Chunk.tool_result i content isError _ =>
          let setNested := fun (r : SubagentInfo) =>
            { r with toolCalls :=
                applyToolResult ⟨none, 0, fun _ => false⟩ r.toolCalls i content isError }
          (sm.fst, { sm.snd with subagents := mapSub sm.snd.subagents pid setNested }, [])
      | _ => (sm.fst, sm.snd, [])

/-- Modelled from the spec: the Stream Coordinator's single entry point —
chunks bearing a parent routing key are routed to the Subagent
Coordinator, all others dispatch by kind. -/
def handleStreamChunk (env : Env) (s : TurnState) (m : ChatMessage) (c : Chunk) :
    TurnState × ChatMessage × List REvent :=
  match c.parentKey with
  | some pid => routeSubagentChunk s m pid c
  | none =>
      match c with
      | Chunk.text content _ => handleText s m content
      | Chunk.thinking content _ => handleThinking s m content
      | Chunk.tool_use i name input _ => handleToolUse s m i name input
      | Chunk.tool_result i content isError _ => handleToolResult env s m i content isError
      | Chunk.usage u sid => handleUsage env s m u sid
      | Chunk.error content => handleMarker s m "Error" content
      | Chunk.blocked content => handleMarker s m "Blocked" content
      | Chunk.done => handleDone s m

/-- Modelled from the spec: clearing the Turn State empties the
Pending-Tool Buffer without flushing (no renderer call for abandoned
calls), clears the open spans, the response start time and both
indicator timer handles. -/
def resetStreamingState (s : TurnState) : TurnState × List REvent :=
  ({ s with textOpen := false, currentTextContent := "", currentThinking := none,
            pendingTools := [], pendingTasks := [], asyncLaunches := [],
            responseStartTime := none, debouncePending := false, timerActive := false },
   [])

/-- Run a whole chunk sequence through the coordinator, concatenating the
side effects in order. -/
def runChunks (env : Env) (s : TurnState) (m : ChatMessage) :
    List Chunk → TurnState × ChatMessage × List REvent
  | [] => (s, m, [])
  | c :: cs =>
      let r := handleStreamChunk env s m c
      let rest := runChunks env r.fst r.snd.fst cs
      (rest.fst, rest.snd.fst, r.snd.snd ++ rest.snd.snd)

/-- At most one of the text span and the thinking span is open. -/
def spanMutex (s : TurnState) : Prop :=
  ¬ (s.textOpen = true ∧ s.currentThinking.isSome = true)

/-- Default collaborator set used for concrete runs: a fixed session,
no nested spawns, a detector that never fires. -/
def defaultEnv : Env :=
  { currentSessionId := some "session-1", subagentsSpawned := 0,
    isBlockedToolResult := fun _ => false }

/-- Chunk kinds whose arrival flushes the Pending-Tool Buffer in full
(top-level text, thinking, blocked, error and done chunks). -/
def isFlushTrigger : Chunk → Prop
  | Chunk.text _ none => True
  | Chunk.thinking _ none => True
  | Chunk.error _ => True
  | Chunk.blocked _ => True
  | Chunk.done => True
  | _ => False

/-- The empty turn state. -/
def initState : TurnState := {}

/-- The empty in-progress message. -/
def initMsg : ChatMessage := {}

/-- The three-buffered-tools sequence of the spec's ordering property. -/
def abcChunks : List Chunk :=
  [Chunk.tool_use "A" "Read" {} none,
   Chunk.tool_use "B" "Grep" {} none,
   Chunk.tool_use "C" "Glob" {} none,
   Chunk.done]

theorem renderedToolIds_append (a b : List REvent) :
    renderedToolIds (a ++ b) = renderedToolIds a ++ renderedToolIds b := by
  simp [renderedToolIds]

theorem renderedToolIds_flushEventFor (m : ChatMessage) (i : String) :
    renderedToolIds [flushEventFor m i] = [i] := by
  unfold flushEventFor
  cases lookupTool m.toolCalls i with
  | none => simp [renderedToolIds]
  | some t =>
      by_cases h : t.name ∈ writeEditToolNames <;> simp [h, renderedToolIds]

theorem renderedToolIds_map_flush (m : ChatMessage) (ids : List String) :
    renderedToolIds (ids.map (flushEventFor m)) = ids := by
  induction ids with
  | nil => simp [renderedToolIds]
  | cons x xs ih =>
      have hx := renderedToolIds_flushEventFor m x
      calc renderedToolIds ((x :: xs).map (flushEventFor m))
          = renderedToolIds ([flushEventFor m x] ++ xs.map (flushEventFor m)) := by simp
        _ = renderedToolIds [flushEventFor m x] ++ renderedToolIds (xs.map (flushEventFor m)) :=
            renderedToolIds_append _ _
        _ = x :: xs := by rw [hx, ih]; simp

theorem finalizeText_events_empty (s : TurnState) (m : ChatMessage) :
    renderedToolIds (finalizeCurrentTextBlock s m).snd.snd = [] := by
  unfold finalizeCurrentTextBlock
  by_cases h : s.textOpen = true ∧ s.currentTextContent ≠ "" <;>
    simp [h, renderedToolIds]

theorem finalizeThinking_events_empty (s : TurnState) (m : ChatMessage) :
    renderedToolIds (finalizeCurrentThinkingBlock s m).snd.snd = [] := by
  unfold finalizeCurrentThinkingBlock
  cases s.currentThinking <;> simp [renderedToolIds]

theorem finalizeThinking_fst_currentThinking (s : TurnState) (m : ChatMessage) :
    (finalizeCurrentThinkingBlock s m).fst.currentThinking = none := by
  unfold finalizeCurrentThinkingBlock
  cases h : s.currentThinking <;> simp [h]

theorem finalizeThinking_fst_textOpen (s : TurnState) (m : ChatMessage) :
    (finalizeCurrentThinkingBlock s m).fst.textOpen = s.textOpen := by
  unfold finalizeCurrentThinkingBlock
  cases s.currentThinking <;> simp

theorem finalizeThinking_fst_currentTextContent (s : TurnState) (m : ChatMessage) :
    (finalizeCurrentThinkingBlock s m).fst.currentTextContent = s.currentTextContent := by
  unfold finalizeCurrentThinkingBlock
  cases s.currentThinking <;> simp

theorem finalizeThinking_fst_pendingTools (s : TurnState) (m : ChatMessage) :
    (finalizeCurrentThinkingBlock s m).fst.pendingTools = s.pendingTools := by
  unfold finalizeCurrentThinkingBlock
  cases s.currentThinking <;> simp

theorem finalizeThinking_fst_planFilePath (s : TurnState) (m : ChatMessage) :
    (finalizeCurrentThinkingBlock s m).fst.planFilePath = s.planFilePath := by
  unfold finalizeCurrentThinkingBlock
  cases s.currentThinking <;> simp

theorem finalizeThinking_snd_toolCalls (s : TurnState) (m : ChatMessage) :
    (finalizeCurrentThinkingBlock s m).snd.fst.toolCalls = m.toolCalls := by
  unfold finalizeCurrentThinkingBlock
  cases s.currentThinking with
  | none => simp
  | some c => by_cases h : c ≠ "" <;> simp [h]

theorem finalizeText_snd_toolCalls (s : TurnState) (m : ChatMessage) :
    (finalizeCurrentTextBlock s m).snd.fst.toolCalls = m.toolCalls := by
  unfold finalizeCurrentTextBlock
  by_cases h : s.currentTextContent ≠ "" <;> simp [h]

theorem capturePlan_textOpen (s : TurnState) (name : String) (input : ToolInput) :
    (capturePlanFilePath s name input).textOpen = s.textOpen := by
  unfold capturePlanFilePath
  by_cases h : name = "Write" <;> simp [h]
  cases input.file_path with
  | none => simp
  | some p => by_cases hp : isPlanFilePath p <;> simp [hp]

theorem capturePlan_currentThinking (s : TurnState) (name : String) (input : ToolInput) :
    (capturePlanFilePath s name input).currentThinking = s.currentThinking := by
  unfold capturePlanFilePath
  by_cases h : name = "Write" <;> simp [h]
  cases input.file_path with
  | none => simp
  | some p => by_cases hp : isPlanFilePath p <;> simp [hp]

theorem capturePlan_pendingTools (s : TurnState) (name : String) (input : ToolInput) :
    (capturePlanFilePath s name input).pendingTools = s.pendingTools := by
  unfold capturePlanFilePath
  by_cases h : name = "Write" <;> simp [h]
  cases input.file_path with
  | none => simp
  | some p => by_cases hp : isPlanFilePath p <;> simp [hp]

theorem renderedToolIds_nil : renderedToolIds [] = [] := rfl

theorem renderedToolIds_renderText (c : String) :
    renderedToolIds [REvent.renderText c] = [] := rfl

theorem handleText_flush (s : TurnState) (m : ChatMessage) (content : String) :
    (handleText s m content).fst.pendingTools = [] ∧
    renderedToolIds (handleText s m content).snd.snd = s.pendingTools := by
  constructor
  · simp only [handleText, flushPendingTools]
    simp [finalizeThinking_fst_pendingTools]
  · simp only [handleText, flushPendingTools]
    rw [renderedToolIds_append, renderedToolIds_append, renderedToolIds_map_flush,
        renderedToolIds_renderText, finalizeThinking_events_empty]
    simp

theorem handleThinking_flush (s : TurnState) (m : ChatMessage) (content : String) :
    (handleThinking s m content).fst.pendingTools = [] ∧
    renderedToolIds (handleThinking s m content).snd.snd = s.pendingTools := by
  by_cases h : ((flushPendingTools s m).fst.hasContentEl = true)
  · constructor
    · simp only [handleThinking]
      rw [if_pos h]
      simp [finalizeCurrentTextBlock, flushPendingTools]
    · simp only [handleThinking]
      rw [if_pos h]
      simp only [flushPendingTools]
      rw [renderedToolIds_append, renderedToolIds_map_flush, finalizeText_events_empty]
      simp
  · constructor
    · simp only [handleThinking]
      rw [if_neg h]
      simp [flushPendingTools]
    · simp only [handleThinking]
      rw [if_neg h]
      simp only [flushPendingTools]
      rw [renderedToolIds_map_flush]

theorem handleMarker_flush (s : TurnState) (m : ChatMessage) (kind content : String) :
    (handleMarker s m kind content).fst.pendingTools = [] ∧
    renderedToolIds (handleMarker s m kind content).snd.snd = s.pendingTools := by
  constructor
  · simp only [handleMarker, flushPendingTools]
    simp [finalizeCurrentTextBlock, finalizeThinking_fst_pendingTools]
  · simp only [handleMarker, flushPendingTools]
    rw [renderedToolIds_append, renderedToolIds_append, renderedToolIds_map_flush,
        finalizeText_events_empty, finalizeThinking_events_empty]
    simp

theorem handleDone_flush (s : TurnState) (m : ChatMessage) :
    (handleDone s m).fst.pendingTools = [] ∧
    renderedToolIds (handleDone s m).snd.snd = s.pendingTools := by
  constructor
  · simp only [handleDone, flushPendingTools]
    simp [finalizeCurrentTextBlock, finalizeThinking_fst_pendingTools]
  · simp only [handleDone, flushPendingTools]
    rw [renderedToolIds_append, renderedToolIds_append, renderedToolIds_map_flush,
        finalizeText_events_empty, finalizeThinking_events_empty]
    simp

/-- C2: whatever the state of the Pending-Tool Buffer, the arrival of a
top-level text, thinking, blocked, error or done chunk flushes the
buffer in full and in insertion order — every buffered tool call is
handed to the renderer exactly once, in the order of first insertion,
and the buffer is empty afterwards; in particular, for the sequence
tool_use(A), tool_use(B), tool_use(C), done, the renderer receives A,
then B, then C. -/
theorem c2_flush_full_in_order (env : Env) (s : TurnState) (m : ChatMessage) (c : Chunk)
    (h : isFlushTrigger c) :
    (handleStreamChunk env s m c).fst.pendingTools = [] ∧
    renderedToolIds (handleStreamChunk env s m c).snd.snd = s.pendingTools ∧
    renderedToolIds (runChunks defaultEnv initState initMsg abcChunks).snd.snd =
      ["A", "B", "C"] := by
  have habc : renderedToolIds (runChunks defaultEnv initState initMsg abcChunks).snd.snd =
      ["A", "B", "C"] := by decide
  cases c with
  | text content p =>
      cases p with
      | none =>
          have hx := handleText_flush s m content
          exact ⟨by simpa [handleStreamChunk, Chunk.parentKey] using hx.1,
                 by simpa [handleStreamChunk, Chunk.parentKey] using hx.2, habc⟩
      | some pid => simp [isFlushTrigger] at h
  | thinking content p =>
      cases p with
      | none =>
          have hx := handleThinking_flush s m content
          exact ⟨by simpa [handleStreamChunk, Chunk.parentKey] using hx.1,
                 by simpa [handleStreamChunk, Chunk.parentKey] using hx.2, habc⟩
      | some pid => simp [isFlushTrigger] at h
  | tool_use i name input p => simp [isFlushTrigger] at h
  | tool_result i content isError p => simp [isFlushTrigger] at h
  | usage u sid => simp [isFlushTrigger] at h
  | error content =>
      have hx := handleMarker_flush s m "Error" content
      exact ⟨by simpa [handleStreamChunk, Chunk.parentKey] using hx.1,
             by simpa [handleStreamChunk, Chunk.parentKey] using hx.2, habc⟩
  | blocked content =>
      have hx := handleMarker_flush s m "Blocked" content
      exact ⟨by simpa [handleStreamChunk, Chunk.parentKey] using hx.1,
             by simpa [handleStreamChunk, Chunk.parentKey] using hx.2, habc⟩
  | done =>
      have hx := handleDone_flush s m
      exact ⟨by simpa [handleStreamChunk, Chunk.parentKey] using hx.1,
             by simpa [handleStreamChunk, Chunk.parentKey] using hx.2, habc⟩

/-- Concrete instantiation of C2: a done chunk arriving with tools A and
B buffered renders A then B and leaves the buffer empty. -/
def c2State : TurnState := { pendingTools := ["A", "B"] }

/-- Message holding the two buffered tool calls of the C2 witness. -/
def c2Msg : ChatMessage :=
  { toolCalls := [{ id := "A", name := "Read", input := {}, status := ToolStatus.running },
                  { id := "B", name := "Grep", input := {}, status := ToolStatus.running }] }

theorem c2_flush_full_in_order_witness :
    (handleStreamChunk defaultEnv c2State c2Msg Chunk.done).fst.pendingTools = [] ∧
    renderedToolIds (handleStreamChunk defaultEnv c2State c2Msg Chunk.done).snd.snd =
      c2State.pendingTools ∧
    renderedToolIds (runChunks defaultEnv initState initMsg abcChunks).snd.snd =
      ["A", "B", "C"] :=
  c2_flush_full_in_order defaultEnv c2State c2Msg Chunk.done True.intro

/-- C5: a usage chunk replaces the stored snapshot exactly when no nested
subagent has been spawned this turn, the usage-ignore flag is not set,
and the chunk carries no session identifier or one equal to the current
session identifier; in every other case the snapshot is unchanged. -/
theorem c5_usage_gating (env : Env) (s : TurnState) (m : ChatMessage)
    (u : Usage) (sid : Option String) :
    (handleStreamChunk env s m (Chunk.usage u sid)).fst.usage =
      (if env.subagentsSpawned = 0 ∧ s.ignoreUsageUpdates = false ∧
          (sid = none ∨ env.currentSessionId = sid) then some u else s.usage) := by
  simp only [handleStreamChunk, Chunk.parentKey, handleUsage]
  split
  · rfl
  · rfl

/-- C8: clearing the turn's streaming state empties the Pending-Tool
Buffer without any renderer side effect for still-buffered calls, and
clears the response start time and both indicator timer handles. -/
theorem c8_reset_clears_buffer_silently (s : TurnState) :
    (resetStreamingState s).fst.pendingTools = [] ∧
    (resetStreamingState s).snd = [] ∧
    renderedToolIds (resetStreamingState s).snd = [] ∧
    (resetStreamingState s).fst.responseStartTime = none ∧
    (resetStreamingState s).fst.debouncePending = false ∧
    (resetStreamingState s).fst.timerActive = false := by
  simp [resetStreamingState, renderedToolIds]

theorem finalizeText_fst_pendingTools (s : TurnState) (m : ChatMessage) :
    (finalizeCurrentTextBlock s m).fst.pendingTools = s.pendingTools := rfl

theorem finalizeText_fst_planFilePath (s : TurnState) (m : ChatMessage) :
    (finalizeCurrentTextBlock s m).fst.planFilePath = s.planFilePath := rfl

theorem finalizeText_fst_currentThinking (s : TurnState) (m : ChatMessage) :
    (finalizeCurrentTextBlock s m).fst.currentThinking = s.currentThinking := rfl

theorem finalizeText_fst_textOpen (s : TurnState) (m : ChatMessage) :
    (finalizeCurrentTextBlock s m).fst.textOpen = false := rfl

theorem capturePlan_planFilePath_non_write (s : TurnState) (name : String)
    (input : ToolInput) (hn : name ≠ "Write") :
    (capturePlanFilePath s name input).planFilePath = s.planFilePath := by
  unfold capturePlanFilePath
  rw [if_neg hn]

theorem capturePlan_write_plan (s : TurnState) (input : ToolInput) (p : String)
    (hp : input.file_path = some p) (hplan : isPlanFilePath p = true) :
    (capturePlanFilePath s "Write" input).planFilePath = some p := by
  unfold capturePlanFilePath
  simp [hp, hplan]

theorem capturePlan_write_nonplan (s : TurnState) (input : ToolInput) (p : String)
    (hp : input.file_path = some p) (hplan : isPlanFilePath p = false) :
    (capturePlanFilePath s "Write" input).planFilePath = s.planFilePath := by
  unfold capturePlanFilePath
  simp [hp, hplan]

theorem handleTaskToolUse_planFilePath (s : TurnState) (m : ChatMessage)
    (i : String) (input : ToolInput) :
    (handleTaskToolUse s m i input).fst.planFilePath = s.planFilePath := by
  unfold handleTaskToolUse
  cases input.run_in_background with
  | none =>
      simp only []
      split <;>
        simp [finalizeCurrentTextBlock, finalizeThinking_fst_planFilePath, flushPendingTools]
  | some b =>
      cases b <;>
        simp [finalizeCurrentTextBlock, finalizeThinking_fst_planFilePath, flushPendingTools]

/-- C9: finalizing an open text or thinking span whose accumulated
content is empty appends no Content Block to the message (and, for text,
adds no copy affordance); a block is appended on close exactly when the
accumulated content is non-empty; and finalizing with no open thinking
span is a complete no-op. -/
theorem c9_empty_finalization_no_block (s : TurnState) (m : ChatMessage) :
    (s.currentTextContent = "" →
      (finalizeCurrentTextBlock s m).snd.fst = m ∧
      (finalizeCurrentTextBlock s m).snd.snd = []) ∧
    (s.currentTextContent ≠ "" →
      (finalizeCurrentTextBlock s m).snd.fst.contentBlocks =
        m.contentBlocks ++ [ContentBlock.text s.currentTextContent]) ∧
    (s.currentThinking = some "" →
      (finalizeCurrentThinkingBlock s m).snd.fst = m) ∧
    (∀ tc, s.currentThinking = some tc → tc ≠ "" →
      (finalizeCurrentThinkingBlock s m).snd.fst.contentBlocks =
        m.contentBlocks ++ [ContentBlock.thinking tc]) ∧
    (s.currentThinking = none → finalizeCurrentThinkingBlock s m = (s, m, [])) := by
  refine ⟨?_, ?_, ?_, ?_, ?_⟩
  · intro h
    unfold finalizeCurrentTextBlock
    simp [h]
  · intro h
    unfold finalizeCurrentTextBlock
    simp [h]
  · intro h
    unfold finalizeCurrentThinkingBlock
    simp [h]
  · intro tc h hne
    unfold finalizeCurrentThinkingBlock
    simp [h, hne]
  · intro h
    unfold finalizeCurrentThinkingBlock
    simp [h]

/-- Concrete state for the C9 witness: both spans open with empty
accumulated content. -/
def c9State : TurnState :=
  { textOpen := true, currentTextContent := "", currentThinking := some "" }

theorem c9_empty_finalization_no_block_witness :
    ((finalizeCurrentTextBlock c9State initMsg).snd.fst = initMsg ∧
     (finalizeCurrentTextBlock c9State initMsg).snd.snd = []) ∧
    (finalizeCurrentThinkingBlock c9State initMsg).snd.fst = initMsg :=
  ⟨(c9_empty_finalization_no_block c9State initMsg).1 rfl,
   (c9_empty_finalization_no_block c9State initMsg).2.2.1 rfl⟩

/-- C10: a tool_use chunk (first or repeat for an id) naming the Write
tool whose (merged) input file_path lies under a `.claude/plans`
directory — forward slashes or Windows backslashes — records that path
as the Turn State's plan file path; a Write outside a plans directory,
or any non-Write tool, leaves the plan file path null. -/
theorem c10_plan_file_capture (env : Env) (s : TurnState) (m : ChatMessage)
    (i : String) (input : ToolInput) (h0 : s.planFilePath = none) :
    (∀ p, input.file_path = some p → isPlanFilePath p = true →
      lookupTool m.toolCalls i = none →
      (handleStreamChunk env s m (Chunk.tool_use i "Write" input none)).fst.planFilePath =
        some p) ∧
    (∀ t p, lookupTool m.toolCalls i = some t →
      (ToolInput.merge t.input input).file_path = some p → isPlanFilePath p = true →
      (handleStreamChunk env s m (Chunk.tool_use i "Write" input none)).fst.planFilePath =
        some p) ∧
    (∀ p, input.file_path = some p → isPlanFilePath p = false →
      lookupTool m.toolCalls i = none →
      (handleStreamChunk env s m (Chunk.tool_use i "Write" input none)).fst.planFilePath =
        none) ∧
    (∀ name, name ≠ "Write" →
      (handleStreamChunk env s m (Chunk.tool_use i name input none)).fst.planFilePath =
        none) := by
  have hW : ("Write" : String) ≠ taskToolName := by decide
  have hA : ("Write" : String) ≠ agentOutputToolName := by decide
  refine ⟨?_, ?_, ?_, ?_⟩
  · intro p hp hplan hnew
    simp only [handleStreamChunk, Chunk.parentKey, handleToolUse]
    rw [if_neg hW, if_neg hA, hnew]
    simp only []
    exact capturePlan_write_plan _ input p hp hplan
  · intro t p ht hp hplan
    simp only [handleStreamChunk, Chunk.parentKey, handleToolUse]
    rw [if_neg hW, if_neg hA, ht]
    simp only []
    exact capturePlan_write_plan _ _ p hp hplan
  · intro p hp hplan hnew
    simp only [handleStreamChunk, Chunk.parentKey, handleToolUse]
    rw [if_neg hW, if_neg hA, hnew]
    simp only []
    rw [capturePlan_write_nonplan _ input p hp hplan]
    simp [finalizeCurrentTextBlock, finalizeThinking_fst_planFilePath, h0]
  · intro name hn
    by_cases hT : name = taskToolName
    · simp only [handleStreamChunk, Chunk.parentKey, handleToolUse]
      rw [if_pos hT, handleTaskToolUse_planFilePath]
      exact h0
    · by_cases hAo : name = agentOutputToolName
      · simp only [handleStreamChunk, Chunk.parentKey, handleToolUse]
        rw [if_neg hT, if_pos hAo]
        simp [finalizeCurrentTextBlock, finalizeThinking_fst_planFilePath, h0]
      · simp only [handleStreamChunk, Chunk.parentKey, handleToolUse]
        rw [if_neg hT, if_neg hAo]
        cases hl : lookupTool m.toolCalls i with
        | some t =>
            simp only []
            rw [capturePlan_planFilePath_non_write s name _ hn]
            exact h0
        | none =>
            simp only []
            rw [capturePlan_planFilePath_non_write _ name input hn]
            simp [finalizeCurrentTextBlock, finalizeThinking_fst_planFilePath, h0]

/-- Concrete input of the C10 witness: a Write under `.claude/plans`. -/
def c10Input : ToolInput := { file_path := some "/home/user/.claude/plans/plan.md" }

theorem c10_plan_file_capture_witness :
    (handleStreamChunk defaultEnv initState initMsg
        (Chunk.tool_use "write-1" "Write" c10Input none)).fst.planFilePath =
      some "/home/user/.claude/plans/plan.md" :=
  (c10_plan_file_capture defaultEnv initState initMsg "write-1" c10Input rfl).1
    "/home/user/.claude/plans/plan.md" rfl (by decide) rfl

/-- C3: a tool_use chunk carrying a new id, no parent routing key and a
non-nested-agent tool name creates a Tool Call with status running,
inserts it into the Pending-Tool Buffer without invoking the renderer,
and appends a tool_use Content Block referencing that id as the last
Content Block, fixing its position at arrival time even though rendering
is deferred. -/
theorem c3_new_tool_use_buffered_and_placed (env : Env) (s : TurnState) (m : ChatMessage)
    (i name : String) (input : ToolInput)
    (hT : name ≠ taskToolName) (hA : name ≠ agentOutputToolName)
    (hnew : lookupTool m.toolCalls i = none) :
    (handleStreamChunk env s m (Chunk.tool_use i name input none)).snd.fst.toolCalls =
      m.toolCalls ++ [{ id := i, name := name, input := input,
                        status := ToolStatus.running, result := none }] ∧
    (handleStreamChunk env s m (Chunk.tool_use i name input none)).fst.pendingTools =
      s.pendingTools ++ [i] ∧
    renderedToolIds (handleStreamChunk env s m (Chunk.tool_use i name input none)).snd.snd =
      [] ∧
    (handleStreamChunk env s m
        (Chunk.tool_use i name input none)).snd.fst.contentBlocks.getLast? =
      some (ContentBlock.tool_use i) := by
  refine ⟨?_, ?_, ?_, ?_⟩
  · simp only [handleStreamChunk, Chunk.parentKey, handleToolUse]
    rw [if_neg hT, if_neg hA, hnew]
    simp only []
    rw [finalizeText_snd_toolCalls, finalizeThinking_snd_toolCalls]
  · simp only [handleStreamChunk, Chunk.parentKey, handleToolUse]
    rw [if_neg hT, if_neg hA, hnew]
    simp only []
    rw [capturePlan_pendingTools]
    simp [finalizeText_fst_pendingTools, finalizeThinking_fst_pendingTools]
  · simp only [handleStreamChunk, Chunk.parentKey, handleToolUse]
    rw [if_neg hT, if_neg hA, hnew]
    simp only []
    rw [renderedToolIds_append, finalizeText_events_empty, finalizeThinking_events_empty]
    rfl
  · simp only [handleStreamChunk, Chunk.parentKey, handleToolUse]
    rw [if_neg hT, if_neg hA, hnew]
    simp only []
    simp [List.getLast?_concat]

theorem c3_new_tool_use_buffered_and_placed_witness :
    (handleStreamChunk defaultEnv initState initMsg
        (Chunk.tool_use "tool-1" "Read" {} none)).snd.fst.toolCalls =
      initMsg.toolCalls ++ [{ id := "tool-1", name := "Read", input := {},
                              status := ToolStatus.running, result := none }] ∧
    (handleStreamChunk defaultEnv initState initMsg
        (Chunk.tool_use "tool-1" "Read" {} none)).fst.pendingTools =
      initState.pendingTools ++ ["tool-1"] ∧
    renderedToolIds (handleStreamChunk defaultEnv initState initMsg
        (Chunk.tool_use "tool-1" "Read" {} none)).snd.snd = [] ∧
    (handleStreamChunk defaultEnv initState initMsg
        (Chunk.tool_use "tool-1" "Read" {} none)).snd.fst.contentBlocks.getLast? =
      some (ContentBlock.tool_use "tool-1") :=
  c3_new_tool_use_buffered_and_placed defaultEnv initState initMsg "tool-1" "Read" {}
    (by decide) (by decide) rfl

theorem lookupTool_applyToolResult (env : Env) (ts : List ToolCall)
    (i content : String) (isError : Bool) :
    lookupTool (applyToolResult env ts i content isError) i =
      (lookupTool ts i).map (fun t =>
        { t with status := resultStatus env t.name content isError,
                 result := some content }) := by
  induction ts with
  | nil => rfl
  | cons t ts ih =>
      by_cases h : t.id = i
      · simp [applyToolResult, lookupTool, h]
      · simp [applyToolResult, lookupTool, h, ih]

/-- Environment whose blocked detector fires exactly on the blocked
security message. -/
def c4DetectorEnv : Env :=
  { currentSessionId := some "session-1", subagentsSpawned := 0,
    isBlockedToolResult := fun c => c == "Command blocked by security policy" }

/-- Running Bash call of the C4 counterexample. -/
def c4Call : ToolCall :=
  { id := "bash-1", name := "Bash", input := {}, status := ToolStatus.running }

/-- State with the Bash call still buffered. -/
def c4State : TurnState := { pendingTools := ["bash-1"] }

/-- Message tracking the Bash call. -/
def c4Msg : ChatMessage := { toolCalls := [c4Call] }

/-- C4 counterexample: the claim says a tool_result for a still-buffered
call leaves the Tool Call completed, or error exactly when the error
flag is set; here the error flag is clear, the tool is buffered and
non-exempted, and the content-based detector fires, so the status is
blocked — neither completed nor error. -/
theorem c4_claim_counterexample :
    "bash-1" ∈ c4State.pendingTools ∧
    (lookupTool (handleStreamChunk c4DetectorEnv c4State c4Msg
        (Chunk.tool_result "bash-1" "Command blocked by security policy" false
          none)).snd.fst.toolCalls "bash-1").map ToolCall.status =
      some ToolStatus.blocked ∧
    ToolStatus.blocked ≠ ToolStatus.completed ∧
    ToolStatus.blocked ≠ ToolStatus.error := by
  decide

/-- C4 (amended): for a tool_result whose id refers to a call still in
the Pending-Tool Buffer and not to any subagent execution, the
coordinator renders exactly that call, removing it from the buffer while
every other buffered call stays buffered, and then marks the Tool Call
error when the error flag is set, blocked when the content-based
detector fires on a non-exempted tool, and completed otherwise, with the
result content attached. -/
theorem c4_pending_result_rendered_then_marked (env : Env) (s : TurnState)
    (m : ChatMessage) (i content : String) (isError : Bool) (t : ToolCall)
    (hpt : i ∉ s.pendingTasks) (hal : i ∉ s.asyncLaunches)
    (hsync : lookupSyncSub m.subagents i = none)
    (hbuf : i ∈ s.pendingTools)
    (ht : lookupTool m.toolCalls i = some t) :
    renderedToolIds (handleStreamChunk env s m
        (Chunk.tool_result i content isError none)).snd.snd = [i] ∧
    (handleStreamChunk env s m
        (Chunk.tool_result i content isError none)).fst.pendingTools =
      removeId s.pendingTools i ∧
    lookupTool (handleStreamChunk env s m
        (Chunk.tool_result i content isError none)).snd.fst.toolCalls i =
      some { t with
        status :=
          (if isError = true then ToolStatus.error
           else if env.isBlockedToolResult content = true ∧ t.name ∉ exemptToolNames then
             ToolStatus.blocked
           else ToolStatus.completed),
        result := some content } := by
  have hred : handleStreamChunk env s m (Chunk.tool_result i content isError none) =
      ((flushSinglePendingTool s m i).fst,
       { m with toolCalls := applyToolResult env m.toolCalls i content isError },
       (flushSinglePendingTool s m i).snd) := by
    simp only [handleStreamChunk, Chunk.parentKey, handleToolResult]
    rw [if_neg hpt, if_neg hal]
    rw [hsync]
    simp
  refine ⟨?_, ?_, ?_⟩
  · rw [hred]
    simp only [flushSinglePendingTool]
    rw [if_pos hbuf]
    exact renderedToolIds_flushEventFor m i
  · rw [hred]
    simp only [flushSinglePendingTool]
    rw [if_pos hbuf]
  · rw [hred]
    simp only []
    rw [lookupTool_applyToolResult, ht]
    simp [resultStatus]

/-- Running Read call of the C4 witness. -/
def c4wCall : ToolCall :=
  { id := "read-1", name := "Read", input := {}, status := ToolStatus.running }

/-- State with the Read call still buffered, plus another buffered id. -/
def c4wState : TurnState := { pendingTools := ["read-1", "grep-1"] }

/-- Message tracking the Read call. -/
def c4wMsg : ChatMessage := { toolCalls := [c4wCall] }

theorem c4_pending_result_rendered_then_marked_witness :
    renderedToolIds (handleStreamChunk defaultEnv c4wState c4wMsg
        (Chunk.tool_result "read-1" "ok" false none)).snd.snd = ["read-1"] ∧
    (handleStreamChunk defaultEnv c4wState c4wMsg
        (Chunk.tool_result "read-1" "ok" false none)).fst.pendingTools =
      removeId c4wState.pendingTools "read-1" ∧
    lookupTool (handleStreamChunk defaultEnv c4wState c4wMsg
        (Chunk.tool_result "read-1" "ok" false none)).snd.fst.toolCalls "read-1" =
      some { c4wCall with
        status :=
          (if false = true then ToolStatus.error
           else if defaultEnv.isBlockedToolResult "ok" = true ∧
               c4wCall.name ∉ exemptToolNames then
             ToolStatus.blocked
           else ToolStatus.completed),
        result := some "ok" } :=
  c4_pending_result_rendered_then_marked defaultEnv c4wState c4wMsg "read-1" "ok" false
    c4wCall (by decide) (by decide) rfl (by decide) (by decide)

/-- C6: a tool_result without the error flag for a call whose tool name
is on the exemption list ends completed and never blocked, whatever the
content-based detector says; for a non-exempted tool a detector-positive
result yields status blocked. -/
theorem c6_exemption_bypasses_blocked (env : Env) (s : TurnState) (m : ChatMessage)
    (i content : String) (t : ToolCall)
    (hpt : i ∉ s.pendingTasks) (hal : i ∉ s.asyncLaunches)
    (hsync : lookupSyncSub m.subagents i = none)
    (ht : lookupTool m.toolCalls i = some t) :
    (t.name ∈ exemptToolNames →
      (lookupTool (handleStreamChunk env s m
          (Chunk.tool_result i content false none)).snd.fst.toolCalls i).map
        ToolCall.status = some ToolStatus.completed) ∧
    (t.name ∉ exemptToolNames → env.isBlockedToolResult content = true →
      (lookupTool (handleStreamChunk env s m
          (Chunk.tool_result i content false none)).snd.fst.toolCalls i).map
        ToolCall.status = some ToolStatus.blocked) := by
  have hred : (handleStreamChunk env s m
      (Chunk.tool_result i content false none)).snd.fst.toolCalls =
      applyToolResult env m.toolCalls i content false := by
    simp only [handleStreamChunk, Chunk.parentKey, handleToolResult]
    rw [if_neg hpt, if_neg hal]
    rw [hsync]
    simp
  constructor
  · intro hex
    rw [hred, lookupTool_applyToolResult, ht]
    simp [resultStatus, hex]
  · intro hnex hdet
    rw [hred, lookupTool_applyToolResult, ht]
    simp [resultStatus, hnex, hdet]

/-- Environment whose blocked detector always fires. -/
def alwaysBlockEnv : Env :=
  { currentSessionId := some "session-1", subagentsSpawned := 0,
    isBlockedToolResult := fun _ => true }

/-- Running AskUserQuestion call of the C6 witness. -/
def c6Call : ToolCall :=
  { id := "ask-1", name := "AskUserQuestion", input := {}, status := ToolStatus.running }

/-- Message tracking the AskUserQuestion call. -/
def c6Msg : ChatMessage := { toolCalls := [c6Call] }

theorem c6_exemption_bypasses_blocked_witness :
    c6Call.name ∈ exemptToolNames ∧
    (lookupTool (handleStreamChunk alwaysBlockEnv initState c6Msg
        (Chunk.tool_result "ask-1" "User denied this action." false
          none)).snd.fst.toolCalls "ask-1").map ToolCall.status =
      some ToolStatus.completed :=
  ⟨by decide,
   (c6_exemption_bypasses_blocked alwaysBlockEnv initState c6Msg "ask-1"
      "User denied this action." c6Call (by decide) (by decide) rfl rfl).1 (by decide)⟩

theorem routeSubagentChunk_message_isolated (s : TurnState) (m : ChatMessage)
    (pid : String) (c : Chunk) :
    (routeSubagentChunk s m pid c).snd.fst.content = m.content ∧
    (routeSubagentChunk s m pid c).snd.fst.toolCalls = m.toolCalls ∧
    (routeSubagentChunk s m pid c).snd.fst.contentBlocks = m.contentBlocks := by
  simp only [routeSubagentChunk]
  by_cases hcond : (lookupSyncSub m.subagents pid).isNone = true ∧ pid ∈ s.pendingTasks
  · rw [if_pos hcond]
    split
    · simp
    · cases c <;> simp
  · rw [if_neg hcond]
    split
    · simp
    · cases c <;> simp

theorem routeSubagentChunk_unknown_noop (s : TurnState) (m : ChatMessage)
    (pid : String) (c : Chunk)
    (hsub : lookupSyncSub m.subagents pid = none) (hpt : pid ∉ s.pendingTasks) :
    routeSubagentChunk s m pid c = (s, m, []) := by
  simp only [routeSubagentChunk]
  rw [if_neg]
  · simp only []
    rw [hsub]
  · intro hcontra
    exact hpt hcontra.2

theorem handleStreamChunk_routed (env : Env) (s : TurnState) (m : ChatMessage)
    (c : Chunk) (pid : String) (hp : c.parentKey = some pid) :
    handleStreamChunk env s m c = routeSubagentChunk s m pid c := by
  cases c with
  | text content p =>
      simp only [Chunk.parentKey] at hp
      simp [handleStreamChunk, Chunk.parentKey, hp]
  | thinking content p =>
      simp only [Chunk.parentKey] at hp
      simp [handleStreamChunk, Chunk.parentKey, hp]
  | tool_use i name input p =>
      simp only [Chunk.parentKey] at hp
      simp [handleStreamChunk, Chunk.parentKey, hp]
  | tool_result i content isError p =>
      simp only [Chunk.parentKey] at hp
      simp [handleStreamChunk, Chunk.parentKey, hp]
  | usage u sid => simp [Chunk.parentKey] at hp
  | error content => simp [Chunk.parentKey] at hp
  | blocked content => simp [Chunk.parentKey] at hp
  | done => simp [Chunk.parentKey] at hp

/-- C7: a chunk bearing a parent routing key never mutates the top-level
message — its content, tool calls and content blocks are unchanged; it
is routed to the owning nested execution when one is known, and when no
owning execution is known (no synchronous record and no buffered Task
for the key) it is silently dropped as an exact no-op, raising no
error. -/
theorem c7_routed_chunk_never_touches_message (env : Env) (s : TurnState)
    (m : ChatMessage) (c : Chunk) (pid : String) (hp : c.parentKey = some pid) :
    (handleStreamChunk env s m c).snd.fst.content = m.content ∧
    (handleStreamChunk env s m c).snd.fst.toolCalls = m.toolCalls ∧
    (handleStreamChunk env s m c).snd.fst.contentBlocks = m.contentBlocks ∧
    (lookupSyncSub m.subagents pid = none → pid ∉ s.pendingTasks →
      handleStreamChunk env s m c = (s, m, [])) := by
  rw [handleStreamChunk_routed env s m c pid hp]
  have hiso := routeSubagentChunk_message_isolated s m pid c
  exact ⟨hiso.1, hiso.2.1, hiso.2.2,
    fun hsub hpt => routeSubagentChunk_unknown_noop s m pid c hsub hpt⟩

theorem c7_routed_chunk_never_touches_message_witness :
    (handleStreamChunk defaultEnv initState initMsg
        (Chunk.text "orphan" (some "unknown-task"))).snd.fst.content = initMsg.content ∧
    (handleStreamChunk defaultEnv initState initMsg
        (Chunk.text "orphan" (some "unknown-task"))).snd.fst.toolCalls =
      initMsg.toolCalls ∧
    (handleStreamChunk defaultEnv initState initMsg
        (Chunk.text "orphan" (some "unknown-task"))).snd.fst.contentBlocks =
      initMsg.contentBlocks ∧
    (lookupSyncSub initMsg.subagents "unknown-task" = none →
      "unknown-task" ∉ initState.pendingTasks →
      handleStreamChunk defaultEnv initState initMsg
        (Chunk.text "orphan" (some "unknown-task")) = (initState, initMsg, [])) :=
  c7_routed_chunk_never_touches_message defaultEnv initState initMsg
    (Chunk.text "orphan" (some "unknown-task")) "unknown-task" rfl

theorem spanMutex_of_textOpen_false {s : TurnState} (h : s.textOpen = false) :
    spanMutex s := by
  intro hc
  rw [h] at hc
  exact Bool.false_ne_true hc.1

theorem spanMutex_of_thinking_none {s : TurnState} (h : s.currentThinking = none) :
    spanMutex s := by
  intro hc
  rw [h] at hc
  simp at hc

theorem handleText_fst_currentThinking (s : TurnState) (m : ChatMessage) (content : String) :
    (handleText s m content).fst.currentThinking = none := by
  simp only [handleText]
  simp [finalizeThinking_fst_currentThinking]

theorem handleThinking_mutex (s : TurnState) (m : ChatMessage) (content : String)
    (h : spanMutex s) : spanMutex (handleThinking s m content).fst := by
  simp only [handleThinking]
  by_cases hc : (flushPendingTools s m).fst.hasContentEl = true
  · rw [if_pos hc]
    apply spanMutex_of_textOpen_false
    simp [finalizeText_fst_textOpen]
  · rw [if_neg hc]
    exact h

theorem handleTaskToolUse_textOpen (s : TurnState) (m : ChatMessage)
    (i : String) (input : ToolInput) :
    (handleTaskToolUse s m i input).fst.textOpen = false := by
  unfold handleTaskToolUse
  cases input.run_in_background with
  | none =>
      simp only []
      split <;> simp [finalizeCurrentTextBlock]
  | some b =>
      cases b <;> simp [finalizeCurrentTextBlock]

theorem capturePlan_mutex (s : TurnState) (name : String) (input : ToolInput)
    (h : spanMutex s) : spanMutex (capturePlanFilePath s name input) := by
  unfold spanMutex
  rw [capturePlan_textOpen, capturePlan_currentThinking]
  exact h

theorem handleToolUse_mutex (s : TurnState) (m : ChatMessage)
    (i name : String) (input : ToolInput) (h : spanMutex s) :
    spanMutex (handleToolUse s m i name input).fst := by
  simp only [handleToolUse]
  by_cases hT : name = taskToolName
  · rw [if_pos hT]
    exact spanMutex_of_textOpen_false (handleTaskToolUse_textOpen s m i input)
  · rw [if_neg hT]
    by_cases hA : name = agentOutputToolName
    · rw [if_pos hA]
      apply spanMutex_of_textOpen_false
      simp [finalizeText_fst_textOpen]
    · rw [if_neg hA]
      cases hl : lookupTool m.toolCalls i with
      | some t =>
          simp only [hl]
          exact capturePlan_mutex s name _ h
      | none =>
          simp only [hl]
          apply spanMutex_of_textOpen_false
          rw [capturePlan_textOpen]
          simp [finalizeText_fst_textOpen]

theorem handleToolResult_mutex (env : Env) (s : TurnState) (m : ChatMessage)
    (i content : String) (isError : Bool) (h : spanMutex s) :
    spanMutex (handleToolResult env s m i content isError).fst := by
  simp only [handleToolResult, flushSinglePendingTool]
  split
  · exact h
  split
  · exact h
  split
  · exact h
  split
  · exact h
  · exact h

theorem handleUsage_mutex (env : Env) (s : TurnState) (m : ChatMessage)
    (u : Usage) (sid : Option String) (h : spanMutex s) :
    spanMutex (handleUsage env s m u sid).fst := by
  simp only [handleUsage]
  split
  · exact h
  · exact h

theorem handleMarker_mutex (s : TurnState) (m : ChatMessage) (kind content : String) :
    spanMutex (handleMarker s m kind content).fst := by
  apply spanMutex_of_textOpen_false
  simp only [handleMarker]
  simp [finalizeCurrentTextBlock]

theorem handleDone_mutex (s : TurnState) (m : ChatMessage) :
    spanMutex (handleDone s m).fst := by
  apply spanMutex_of_textOpen_false
  simp only [handleDone]
  simp [finalizeCurrentTextBlock]

theorem routeSubagentChunk_mutex (s : TurnState) (m : ChatMessage)
    (pid : String) (c : Chunk) (h : spanMutex s) :
    spanMutex (routeSubagentChunk s m pid c).fst := by
  simp only [routeSubagentChunk]
  by_cases hcond : (lookupSyncSub m.subagents pid).isNone = true ∧ pid ∈ s.pendingTasks
  · rw [if_pos hcond]
    split
    · exact h
    · cases c <;> exact h
  · rw [if_neg hcond]
    split
    · exact h
    · cases c <;> exact h

theorem finalizeThinking_snd_contentBlocks_some (s : TurnState) (m : ChatMessage)
    (tc : String) (h : s.currentThinking = some tc) (hne : tc ≠ "") :
    (finalizeCurrentThinkingBlock s m).snd.fst.contentBlocks =
      m.contentBlocks ++ [ContentBlock.thinking tc] := by
  unfold finalizeCurrentThinkingBlock
  rw [h]
  simp [hne]

theorem finalizeText_snd_contentBlocks_nonempty (s : TurnState) (m : ChatMessage)
    (h : s.currentTextContent ≠ "") :
    (finalizeCurrentTextBlock s m).snd.fst.contentBlocks =
      m.contentBlocks ++ [ContentBlock.text s.currentTextContent] := by
  unfold finalizeCurrentTextBlock
  simp [h]

/-- C1: after any chunk, at most one of the text span and the thinking
span is open; and when a chunk of the other kind arrives — text while
thinking is open, or thinking or a fresh tool_use while text is open —
the open span is finalized first: its non-empty content is appended to
the Content Blocks and its state is cleared before the new chunk's
content is processed. -/
theorem c1_text_thinking_mutual_exclusion (env : Env) (s : TurnState) (m : ChatMessage)
    (c : Chunk) (h : spanMutex s) :
    spanMutex (handleStreamChunk env s m c).fst ∧
    (∀ content tc, c = Chunk.text content none → s.currentThinking = some tc → tc ≠ "" →
      (handleStreamChunk env s m c).fst.currentThinking = none ∧
      ContentBlock.thinking tc ∈ (handleStreamChunk env s m c).snd.fst.contentBlocks) ∧
    (∀ content, c = Chunk.thinking content none → s.hasContentEl = true →
      s.textOpen = true → s.currentTextContent ≠ "" →
      (handleStreamChunk env s m c).fst.textOpen = false ∧
      ContentBlock.text s.currentTextContent ∈
        (handleStreamChunk env s m c).snd.fst.contentBlocks) ∧
    (∀ i name input, c = Chunk.tool_use i name input none → name ≠ taskToolName →
      name ≠ agentOutputToolName → lookupTool m.toolCalls i = none →
      s.textOpen = true → s.currentTextContent ≠ "" →
      (handleStreamChunk env s m c).fst.textOpen = false ∧
      ContentBlock.text s.currentTextContent ∈
        (handleStreamChunk env s m c).snd.fst.contentBlocks) := by
  refine ⟨?_, ?_, ?_, ?_⟩
  · cases c with
    | text content p =>
        cases p with
        | none =>
            simp only [handleStreamChunk, Chunk.parentKey]
            exact spanMutex_of_thinking_none (handleText_fst_currentThinking s m content)
        | some pid =>
            simp only [handleStreamChunk, Chunk.parentKey]
            exact routeSubagentChunk_mutex s m pid _ h
    | thinking content p =>
        cases p with
        | none =>
            simp only [handleStreamChunk, Chunk.parentKey]
            exact handleThinking_mutex s m content h
        | some pid =>
            simp only [handleStreamChunk, Chunk.parentKey]
            exact routeSubagentChunk_mutex s m pid _ h
    | tool_use i name input p =>
        cases p with
        | none =>
            simp only [handleStreamChunk, Chunk.parentKey]
            exact handleToolUse_mutex s m i name input h
        | some pid =>
            simp only [handleStreamChunk, Chunk.parentKey]
            exact routeSubagentChunk_mutex s m pid _ h
    | tool_result i content isError p =>
        cases p with
        | none =>
            simp only [handleStreamChunk, Chunk.parentKey]
            exact handleToolResult_mutex env s m i content isError h
        | some pid =>
            simp only [handleStreamChunk, Chunk.parentKey]
            exact routeSubagentChunk_mutex s m pid _ h
    | usage u sid =>
        simp only [handleStreamChunk, Chunk.parentKey]
        exact handleUsage_mutex env s m u sid h
    | error content =>
        simp only [handleStreamChunk, Chunk.parentKey]
        exact handleMarker_mutex s m "Error" content
    | blocked content =>
        simp only [handleStreamChunk, Chunk.parentKey]
        exact handleMarker_mutex s m "Blocked" content
    | done =>
        simp only [handleStreamChunk, Chunk.parentKey]
        exact handleDone_mutex s m
  · intro content tc hc hth hne
    subst hc
    constructor
    · simp only [handleStreamChunk, Chunk.parentKey]
      exact handleText_fst_currentThinking s m content
    · simp only [handleStreamChunk, Chunk.parentKey, handleText]
      rw [finalizeThinking_snd_contentBlocks_some (flushPendingTools s m).fst m tc hth hne]
      simp
  · intro content hc hcel hto htc
    subst hc
    have hcond : (flushPendingTools s m).fst.hasContentEl = true := hcel
    constructor
    · simp only [handleStreamChunk, Chunk.parentKey, handleThinking]
      rw [if_pos hcond]
      simp [finalizeText_fst_textOpen]
    · simp only [handleStreamChunk, Chunk.parentKey, handleThinking]
      rw [if_pos hcond]
      rw [finalizeText_snd_contentBlocks_nonempty (flushPendingTools s m).fst m htc]
      simp [flushPendingTools]
  · intro i name input hc hT hA hnew hto htc
    subst hc
    have hktc : (finalizeCurrentThinkingBlock s m).fst.currentTextContent ≠ "" := by
      rw [finalizeThinking_fst_currentTextContent]
      exact htc
    constructor
    · simp only [handleStreamChunk, Chunk.parentKey, handleToolUse]
      rw [if_neg hT, if_neg hA, hnew]
      simp only []
      rw [capturePlan_textOpen]
      simp [finalizeText_fst_textOpen]
    · simp only [handleStreamChunk, Chunk.parentKey, handleToolUse]
      rw [if_neg hT, if_neg hA, hnew]
      simp only []
      rw [finalizeText_snd_contentBlocks_nonempty _ _ hktc,
          finalizeThinking_fst_currentTextContent]
      simp

/-- Concrete state for the C1 witness: a thinking span open with
non-empty content and a text chunk arriving. -/
def c1State : TurnState := { currentThinking := some "Let me think..." }

theorem c1_text_thinking_mutual_exclusion_witness :
    spanMutex (handleStreamChunk defaultEnv c1State initMsg
      (Chunk.text "Hello" none)).fst ∧
    (handleStreamChunk defaultEnv c1State initMsg
      (Chunk.text "Hello" none)).fst.currentThinking = none ∧
    ContentBlock.thinking "Let me think..." ∈
      (handleStreamChunk defaultEnv c1State initMsg
        (Chunk.text "Hello" none)).snd.fst.contentBlocks := by
  have hmutex : spanMutex c1State := by
    intro hc
    exact Bool.false_ne_true hc.1
  have hmain := c1_text_thinking_mutual_exclusion defaultEnv c1State initMsg
    (Chunk.text "Hello" none) hmutex
  have hpart := hmain.2.1 "Hello" "Let me think..." rfl rfl (by decide)
  exact ⟨hmain.1, hpart.1, hpart.2⟩

end Claudian
